import Mathlib

/-!
Verification of the splid_mcp tool-invocation layer.

The definitions below are a shallow embedding of `src/mcp.ts` and
`src/server.ts`.  JavaScript numbers are modelled as exact rationals
(the band check and the computed share sum are stated over ℚ), optional
or possibly-absent string fields as `Option String`, and the JavaScript
truthiness test on a string-or-undefined value (`if (x)`) as `jsTruthy`,
which is false exactly for `none` and for the empty string.  Collaborator
calls on the external splid-js client are modelled by an environment
record `SplidEnv` of pure functions; thrown errors become `Except.error`
or a `fatal` result constructor, while returned `isError: true` tool
results become a `toolError` result constructor.
-/

set_option autoImplicit false

namespace SplidMcp

/-- A resolved group, as produced by `resolveGroup` and `getDefaultGroup`
in `server.ts`: the group object id and the optional default currency
code read from group info. -/
structure GroupRef where
  id : String
  currencyCode : Option String
deriving DecidableEq, Repr

/-- The caller-supplied group selector fields shared by createExpense,
listEntries and getGroupSummary (`GroupSelector` schema in `mcp.ts`):
three optional strings. -/
structure GroupSelector where
  groupId : Option String
  groupCode : Option String
  groupName : Option String
deriving DecidableEq, Repr

/-- JavaScript truthiness of a string-valued field that may be absent:
`undefined` and the empty string are falsy, every other string truthy. -/
def jsTruthy : Option String → Bool
  | some s => s != ""
  | none => false

/-- ASCII lowercasing of one character, the model of what
`String.prototype.toLowerCase` does on the ASCII range (all names in
the claims are ASCII). -/
def charLowerJs (c : Char) : Char :=
  if 65 ≤ c.toNat ∧ c.toNat ≤ 90 then Char.ofNat (c.toNat + 32) else c

/-- The model of `s.toLowerCase()`. -/
def jsToLower (s : String) : String :=
  ⟨s.data.map charLowerJs⟩

/-- The model of `Math.abs` on an exact rational. -/
def mathAbs (q : ℚ) : ℚ :=
  if q < 0 then -q else q

/-- JavaScript nullish coalescing `a ?? b` on optional strings: keeps `a`
whenever it is present, even when it is the empty string. -/
def jsOr (a b : Option String) : Option String :=
  match a with
  | some s => some s
  | none => b

/-- One record of the member snapshot returned by the collaborator
(`splid.listMembers`): the display name and the stable GlobalId, each of
which the dynamic code checks for being a string before use. -/
structure MemberRec where
  name : Option String
  globalId : Option String
deriving DecidableEq, Repr

/-- The pure environment standing for the external splid-js collaborator
reached from `server.ts`: invite-code resolution, per-group default
currency, the configured CODE value, per-group member snapshots, entry
lists and an opaque summary. -/
structure SplidEnv where
  inviteCode : String → String
  currencyOf : String → Option String
  defaultCode : String
  membersOf : String → List MemberRec
  entriesOf : String → List String
  summaryOf : String → String

/-- `getDefaultGroup` from `server.ts`: resolve the configured CODE via
the invite-code lookup, then read the default currency of that group. -/
def getDefaultGroup (env : SplidEnv) : GroupRef :=
  let gid := env.inviteCode env.defaultCode
  ⟨gid, env.currencyOf gid⟩

/-- `resolveGroup` from `server.ts`: groupId takes precedence, then
groupCode, then groupName (which always throws), and with all three
falsy it falls back to the default group.  The thrown error is modelled
as `Except.error` with the exact message of the source. -/
def resolveGroup (env : SplidEnv) (sel : GroupSelector) : Except String GroupRef :=
  if jsTruthy sel.groupId then
    .ok ⟨sel.groupId.getD "", env.currencyOf (sel.groupId.getD "")⟩
  else if jsTruthy sel.groupCode then
    .ok ⟨env.inviteCode (sel.groupCode.getD ""), env.currencyOf (env.inviteCode (sel.groupCode.getD ""))⟩
  else if jsTruthy sel.groupName then
    .error "Group selection by name is not supported yet"
  else
    .ok (getDefaultGroup env)

/-- The group-selection ternary shared verbatim by the createExpense,
listEntries and getGroupSummary handlers in `mcp.ts`:
`(groupId || groupCode || groupName) ? splid.resolveGroup(...) : splid.getDefaultGroup()`. -/
def selectGroup (env : SplidEnv) (sel : GroupSelector) : Except String GroupRef :=
  if jsTruthy sel.groupId || jsTruthy sel.groupCode || jsTruthy sel.groupName then
    resolveGroup env sel
  else
    .ok (getDefaultGroup env)

deriving instance DecidableEq for Except

/-- Lookup in a string-keyed association list; the model of reading a
property of a plain JavaScript object used as a map. -/
def lookupA : List (String × String) → String → Option String
  | [], _ => none
  | (k, v) :: rest, key => if key = k then some v else lookupA rest key

/-- Overwriting insertion into a string-keyed association list; the model
of assigning a property of a plain JavaScript object.  The key occurs at
most once afterwards and reads see the last written value, exactly as
for object assignment (the enumeration order of keys, which nothing in
the source observes, is not preserved). -/
def updAssoc (l : List (String × String)) (k v : String) : List (String × String) :=
  (k, v) :: l.filter (fun p => p.1 != k)

/-- One step of building the lowercased-name map in
`resolveUserIdsByName`: a member contributes only when both its `name`
and its `GlobalId` are strings, and later members overwrite earlier ones
with the same lowercased name. -/
def bnmStep (acc : List (String × String)) (m : MemberRec) : List (String × String) :=
  match m.name, m.globalId with
  | some nm, some gid => updAssoc acc (jsToLower nm) gid
  | _, _ => acc

/-- The lowercased display-name to GlobalId map built by
`resolveUserIdsByName` from the member snapshot. -/
def buildNameMap (ms : List MemberRec) : List (String × String) :=
  ms.foldl bnmStep []

/-- The resolution loop of `resolveUserIdsByName`: for each requested
name in order, look up its lowercased form; a falsy result (absent key
or empty id) throws `Unknown member name: n` at once, otherwise the
original name is recorded and the loop continues. -/
def resolveLoop (nm : List (String × String)) (acc : List (String × String)) :
    List String → Except String (List (String × String))
  | [] => .ok acc
  | n :: rest =>
    match lookupA nm (jsToLower n) with
    | none => .error ("Unknown member name: " ++ n)
    | some v =>
      if v = "" then .error ("Unknown member name: " ++ n)
      else resolveLoop nm (updAssoc acc n v) rest

/-- `resolveUserIdsByName` from `mcp.ts`, for a member snapshot already
fetched from the collaborator: build the case-insensitive lookup once,
then resolve the requested names in order, failing at the first miss. -/
def resolveUserIdsByName (ms : List MemberRec) (names : List String) :
    Except String (List (String × String)) :=
  resolveLoop (buildNameMap ms) [] names

/-- Case-insensitive match of a requested key against one snapshot
member, used to state that a display name is present in or absent from
the snapshot. -/
def memberMatchesKey (key : String) (m : MemberRec) : Bool :=
  match m.name with
  | some nm => jsToLower nm == key
  | none => false

/-- A payer as parsed by the `PayerLoose` schema: optional userId,
optional name, and an amount. -/
structure PayerIn where
  userId : Option String
  name : Option String
  amount : ℚ
deriving DecidableEq, Repr

/-- A profiteer as parsed by the `ProfiteerLoose` schema: optional
userId, optional name, and a share. -/
structure ProfiteerIn where
  userId : Option String
  name : Option String
  share : ℚ
deriving DecidableEq, Repr

/-- The non-selector fields of the createExpense input after schema
parsing (the selector fields are passed separately, mirroring the
destructuring in the handler). -/
structure CreateExpenseArgs where
  title : String
  amount : ℚ
  currencyCode : Option String
  payers : List PayerIn
  profiteers : List ProfiteerIn
deriving DecidableEq, Repr

/-- A normalized payer as forwarded to `splid.createExpense`: an
identifier and an amount, with no name field at all. -/
structure NormPayer where
  userId : Option String
  amount : ℚ
deriving DecidableEq, Repr

/-- A normalized profiteer as forwarded to `splid.createExpense`: an
identifier and a share, with no name field at all. -/
structure NormProfiteer where
  userId : Option String
  share : ℚ
deriving DecidableEq, Repr

/-- The argument record of the `splid.createExpense` collaborator call
built at the end of the createExpense handler. -/
structure ExpenseCall where
  groupId : String
  title : String
  amount : ℚ
  currencyCode : String
  payers : List NormPayer
  profiteers : List NormProfiteer
deriving DecidableEq, Repr

/-- The tool-level (returned, `isError: true`) error results of the
createExpense handler.  `shareSum` carries the computed share sum that
the source interpolates into `Shares must sum to 1. Current sum: ...`;
`unknownMember` carries the full thrown resolver message, which the MCP
SDK surfaces as an error result; `unresolvedIds` is the defensive
`Failed to resolve all user names to IDs` double-check. -/
inductive ToolErr where
  | shareSum (sum : ℚ)
  | unknownMember (msg : String)
  | unresolvedIds
deriving DecidableEq, Repr

/-- Outcome of one createExpense handler invocation: the collaborator
call on success, a returned tool-level error result, or a thrown error
(`fatal`) such as the unsupported groupName selector. -/
inductive CEResult where
  | ok (call : ExpenseCall)
  | toolError (e : ToolErr)
  | fatal (msg : String)
deriving DecidableEq, Repr

/-- The share-sum accumulation `profiteers.reduce((s, p) => s + p.share, 0)`. -/
def shareSum (ps : List ProfiteerIn) : ℚ :=
  ps.foldl (fun s p => s + p.share) 0

/-- The fixed tolerance `epsilon = 1e-6` of the share-sum check. -/
def eps : ℚ := mkRat 1 1000000

/-- Insertion-ordered deduplication, the model of
`Array.from(new Set(list))`. -/
def dedupKeep (l : List String) : List String :=
  l.foldl (fun acc n => if acc.contains n then acc else acc ++ [n]) []

/-- The names needing resolution: payers and profiteers with a falsy
userId and a truthy name, payers first, deduplicated. -/
def pendingNames (a : CreateExpenseArgs) : List String :=
  dedupKeep
    (((a.payers.filter (fun p => !(jsTruthy p.userId) && jsTruthy p.name)).map
        (fun p => p.name.getD "")) ++
      ((a.profiteers.filter (fun p => !(jsTruthy p.userId) && jsTruthy p.name)).map
        (fun p => p.name.getD "")))

/-- Normalization of one payer: `userId ?? nameToId[name]`, keeping the
given userId whenever it is present (even empty) and otherwise reading
the resolved map at the name. -/
def normPayersOf (nameToId : List (String × String)) (ps : List PayerIn) : List NormPayer :=
  ps.map (fun p =>
    ⟨jsOr p.userId (match p.name with | some nm => lookupA nameToId nm | none => none), p.amount⟩)

/-- Normalization of one profiteer, as for payers. -/
def normProfsOf (nameToId : List (String × String)) (ps : List ProfiteerIn) : List NormProfiteer :=
  ps.map (fun p =>
    ⟨jsOr p.userId (match p.name with | some nm => lookupA nameToId nm | none => none), p.share⟩)

/-- The body of the createExpense handler after group resolution: the
share-sum check, name resolution for parties lacking a userId, the
defensive all-ids check, and finally the collaborator call with the
currency defaulting chain `currencyCode ?? group.currencyCode ?? EUR`. -/
def createExpenseCore (env : SplidEnv) (g : GroupRef) (a : CreateExpenseArgs) : CEResult :=
  if eps < mathAbs (shareSum a.profiteers - 1) then
    .toolError (.shareSum (shareSum a.profiteers))
  else
    match
      (if (pendingNames a).isEmpty then Except.ok []
       else resolveUserIdsByName (env.membersOf g.id) (pendingNames a)) with
    | .error msg => .toolError (.unknownMember msg)
    | .ok nameToId =>
      if (normPayersOf nameToId a.payers).any (fun p => !(jsTruthy p.userId)) ||
          (normProfsOf nameToId a.profiteers).any (fun p => !(jsTruthy p.userId)) then
        .toolError .unresolvedIds
      else
        .ok ⟨g.id, a.title, a.amount, (jsOr a.currencyCode g.currencyCode).getD "EUR",
          normPayersOf nameToId a.payers, normProfsOf nameToId a.profiteers⟩

/-- The createExpense tool handler of `mcp.ts`: resolve the group from
the selector or the default, then run the validation and normalization
body. -/
def createExpenseHandler (env : SplidEnv) (sel : GroupSelector) (a : CreateExpenseArgs) : CEResult :=
  match selectGroup env sel with
  | .error e => .fatal e
  | .ok g => createExpenseCore env g a

/-- The collaborator entry fetch forwarded by listEntries:
`entry.getByGroup(groupId, 0, limit)`. -/
structure FetchCall where
  groupId : String
  offset : Int
  limit : Int
deriving DecidableEq, Repr

/-- Outcome of one listEntries invocation: schema rejection of the raw
input before any collaborator call, the collaborator fetch on success,
or a thrown group-resolution error. -/
inductive LEResult where
  | schemaError
  | ok (call : FetchCall)
  | fatal (msg : String)
deriving DecidableEq, Repr

/-- The zod boundary for the listEntries limit,
`z.number().int().min(1).max(100)`, on a raw JSON number: `none` is a
schema rejection, `some parsed` the parsed optional limit (an absent
field stays absent; the handler applies the 20 default later). -/
def limitSchema : Option ℚ → Option (Option Int)
  | none => some none
  | some q => if q.den = 1 ∧ 1 ≤ q ∧ q ≤ 100 then some (some q.num) else none

/-- `splidApi.listEntries` from `server.ts`: forwards
`getByGroup(groupId, 0, limit ?? 20)`. -/
def apiListEntries (gid : String) (limit : Option Int) : FetchCall :=
  ⟨gid, 0, limit.getD 20⟩

/-- The listEntries tool handler of `mcp.ts` composed with the schema
boundary and `splidApi.listEntries`: schema check first, then group
resolution, then the fetch with `limit ?? 20`. -/
def listEntriesHandler (env : SplidEnv) (sel : GroupSelector) (rawLimit : Option ℚ) : LEResult :=
  match limitSchema rawLimit with
  | none => .schemaError
  | some parsed =>
    match selectGroup env sel with
    | .error e => .fatal e
    | .ok g => .ok (apiListEntries g.id (some (parsed.getD 20)))

/-- Modelled from the spec: the external splid-js `entry.getByGroup`
fetch, absent from this repository, which per the spec returns up to
`limit` entries starting at the given offset. -/
def fetchEntries (xs : List String) (off lim : Int) : List String :=
  (xs.drop off.toNat).take lim.toNat

/-- Outcome of one getGroupSummary invocation. -/
inductive GSResult where
  | ok (summary : String)
  | fatal (msg : String)
deriving DecidableEq, Repr

/-- The getGroupSummary tool handler of `mcp.ts`: resolve the group,
then return the collaborator summary for its id. -/
def getGroupSummaryHandler (env : SplidEnv) (sel : GroupSelector) : GSResult :=
  match selectGroup env sel with
  | .error e => .fatal e
  | .ok g => .ok (env.summaryOf g.id)

/-- Outcome of one POST /mcp dispatch in `server.ts`. -/
inductive PostOutcome where
  | badRequest
  | handled (sid : String)
  | created (sid : String)
deriving DecidableEq, Repr

/-- Registration of a freshly initialized session id in the transports
map (string-keyed object, so at most one entry per key). -/
def insertSid (m : List String) (sid : String) : List String :=
  if sid ∈ m then m else sid :: m

/-- The POST /mcp handler of `server.ts`, with the transports map
modelled by its key set: a truthy string session header is looked up in
the map (miss is a 400 rejection); otherwise only an initialization
request may start a new session, whose generated id is registered by the
`onsessioninitialized` callback.  A non-string header value (absent, or
a repeated header) and the empty string take the no-header path, exactly
as the source truthy-and-typeof test does. -/
def postMcp (m : List String) (hdr : Option String) (isInit : Bool) (newSid : String) :
    PostOutcome × List String :=
  match hdr with
  | some s =>
    if s ≠ "" then
      if s ∈ m then (.handled s, m) else (.badRequest, m)
    else if isInit then (.created newSid, insertSid m newSid)
    else (.badRequest, m)
  | none =>
    if isInit then (.created newSid, insertSid m newSid)
    else (.badRequest, m)

/-- The `transport.onclose` callback of `server.ts`:
`if (sid && transports[sid]) delete transports[sid]`. -/
def onClose (m : List String) (sid : Option String) : List String :=
  match sid with
  | some s => if s ≠ "" ∧ s ∈ m then m.filter (fun x => x != s) else m
  | none => m

/-- A serialized tool result: the text content of its single content
item, and the error flag (absent means false). -/
structure ToolResult where
  contentText : String
  isError : Bool
deriving DecidableEq, Repr

/-- The health tool of `mcp.ts`: a constant, non-error text result
`ok`. -/
def healthToolResult : ToolResult :=
  ⟨"ok", false⟩

/-- The JSON body sent by the GET /health route of `server.ts`. -/
structure HealthBody where
  ok : Bool
deriving DecidableEq, Repr

/-- The GET /health response body, literally the object with field
`ok: true`. -/
def healthEndpointBody : HealthBody :=
  ⟨true⟩

/-- A concrete collaborator environment used for witnesses: one group
G1 with default currency USD reachable from the configured CODE, whose
member snapshot holds Alice and Bob. -/
def demoEnv : SplidEnv where
  inviteCode := fun _ => "G1"
  currencyOf := fun _ => some "USD"
  defaultCode := "CODE"
  membersOf := fun _ => [⟨some "Alice", some "idAlice"⟩, ⟨some "Bob", some "idBob"⟩]
  entriesOf := fun _ => []
  summaryOf := fun _ => "summary"

/-- The end-to-end createExpense input of the spec scenario: one payer
Alice by name with amount 12.5, profiteers Bob 0.6 and Alice 0.4 by
name, no explicit currency. -/
def demoArgs : CreateExpenseArgs where
  title := "Dinner"
  amount := mkRat 25 2
  currencyCode := none
  payers := [⟨none, some "Alice", mkRat 25 2⟩]
  profiteers := [⟨none, some "Bob", mkRat 3 5⟩, ⟨none, some "Alice", mkRat 2 5⟩]

/-- A createExpense input whose profiteer shares sum to 0.9, the
mismatch scenario of the spec. -/
def ceBadArgs : CreateExpenseArgs where
  title := "Lunch"
  amount := 1
  currencyCode := none
  payers := [⟨some "u1", none, 1⟩]
  profiteers := [⟨some "u1", none, mkRat 1 2⟩, ⟨some "u2", none, mkRat 2 5⟩]

/-- A one-member snapshot holding Alice, used for resolver witnesses. -/
def msAlice : List MemberRec :=
  [⟨some "Alice", some "id1"⟩]

unseal Rat.add Rat.sub

/-- C2: a createExpense call with payer Alice by name for 12.5 and
profiteers Bob with share 0.6 and Alice with share 0.4 by name, against
a group whose member snapshot contains Alice and Bob, succeeds and
forwards to the collaborator createExpense the amount 12.5, the
normalized payer holding the stable id of Alice with amount 12.5, and
the normalized profiteers holding the stable ids of Bob and Alice with
shares 0.6 and 0.4.  The forwarded party records carry identifiers
only: the NormPayer and NormProfiteer types have no name field. -/
theorem createExpense_end_to_end :
    createExpenseHandler demoEnv ⟨none, none, none⟩ demoArgs =
      .ok ⟨"G1", "Dinner", mkRat 25 2, "USD",
        [⟨some "idAlice", mkRat 25 2⟩],
        [⟨some "idBob", mkRat 3 5⟩, ⟨some "idAlice", mkRat 2 5⟩]⟩ := by decide

/-- C9 counterexample: the health tool of `mcp.ts` does not return the
payload of the object with field ok set to true: its result is the
plain two-character text "ok", which differs from the JSON rendering of
that object. -/
theorem health_tool_payload_cex :
    healthToolResult.contentText = "ok" ∧
    healthToolResult.contentText ≠ "\x7b\"ok\":true\x7d" := by decide

/-- C9 (amended): the health tool takes no input, never fails (it is a
constant non-error result), and returns the text payload "ok"; the JSON
body with ok set to true is returned by the GET /health HTTP route of
`server.ts`, not by the tool. -/
theorem health_tool_ok_text :
    healthToolResult = ⟨"ok", false⟩ ∧ healthEndpointBody = ⟨true⟩ := by decide

/-- C10: an empty-string selector field is treated as absent: with
groupId equal to the empty string and the other two selectors absent,
each of createExpense, listEntries and getGroupSummary silently
resolves and uses the configured default group, behaving identically to
an all-absent selector. -/
theorem empty_selector_uses_default (env : SplidEnv) (a : CreateExpenseArgs)
    (rawLimit : Option ℚ) :
    selectGroup env ⟨some "", none, none⟩ = .ok (getDefaultGroup env) ∧
    createExpenseHandler env ⟨some "", none, none⟩ a =
      createExpenseHandler env ⟨none, none, none⟩ a ∧
    listEntriesHandler env ⟨some "", none, none⟩ rawLimit =
      listEntriesHandler env ⟨none, none, none⟩ rawLimit ∧
    getGroupSummaryHandler env ⟨some "", none, none⟩ =
      getGroupSummaryHandler env ⟨none, none, none⟩ :=
  ⟨rfl, rfl, rfl, rfl⟩

/-- C7: a POST /mcp request carrying no session identifier that is not
an initialization request is rejected with a client error and creates
no session state, and a request carrying a non-empty session identifier
not present in the session map is rejected with a client error and
leaves the map unchanged.  An empty-string header value is falsy and is
treated by the source exactly like an absent identifier, mirroring the
empty-selector convention of C10. -/
theorem session_invalid_reject (m : List String) (hdr : Option String)
    (isInit : Bool) (newSid : String) :
    ((hdr = none ∨ hdr = some "") → isInit = false →
      postMcp m hdr isInit newSid = (.badRequest, m)) ∧
    (∀ s, hdr = some s → s ≠ "" → s ∉ m →
      postMcp m hdr isInit newSid = (.badRequest, m)) := by
  constructor
  · rintro (rfl | rfl) rfl <;> simp [postMcp]
  · rintro s rfl hs hm
    simp [postMcp, hs, hm]

/-- C7 witness: a request bearing the unknown session id B against a map
holding only A is rejected and the map is unchanged. -/
theorem session_invalid_reject_demo :
    postMcp ["A"] (some "B") true "N" = (.badRequest, ["A"]) :=
  (session_invalid_reject ["A"] (some "B") true "N").2 "B" rfl (by decide) (by decide)

/-- C8: after the channel-close signal for a session S, the identifier
of S is no longer in the session map; the removal is idempotent and a
no-op when S is already absent; and every subsequent request bearing
the identifier of S against a map not containing it is rejected as an
invalid session with the map unchanged. -/
theorem session_close_invalidates (m : List String) (S : String) (hS : S ≠ "") :
    S ∉ onClose m (some S) ∧
    onClose (onClose m (some S)) (some S) = onClose m (some S) ∧
    (S ∉ m → onClose m (some S) = m) ∧
    (∀ m' : List String, ∀ isInit : Bool, ∀ newSid : String, S ∉ m' →
      postMcp m' (some S) isInit newSid = (.badRequest, m')) := by
  have hmem : ∀ mm : List String, S ∉ mm → onClose mm (some S) = mm := by
    intro mm h
    simp only [onClose]
    rw [if_neg]
    exact fun hc => h hc.2
  have hgone : ∀ mm : List String, S ∉ onClose mm (some S) := by
    intro mm
    by_cases h : S ∈ mm
    · simp only [onClose]
      rw [if_pos ⟨hS, h⟩]
      simp [List.mem_filter]
    · rw [hmem mm h]; exact h
  refine ⟨hgone m, hmem _ (hgone m), hmem m, ?_⟩
  intro m' isInit newSid hm'
  simp [postMcp, hS, hm']

/-- C8 witness: closing session S1 removes it from the map holding S1
and S2, and a later request bearing S1 is rejected with the map
unchanged. -/
theorem session_close_invalidates_demo :
    ("S1" ∉ onClose ["S1", "S2"] (some "S1")) ∧
    postMcp ["S2"] (some "S1") true "N" = (.badRequest, ["S2"]) :=
  ⟨(session_close_invalidates ["S1", "S2"] "S1" (by decide)).1,
   (session_close_invalidates ["S2"] "S1" (by decide)).2.2.2 ["S2"] true "N" (by decide)⟩

/-- Filtering out the pairs holding a given key does not change lookups
at any other key. -/
theorem lookupA_filter_ne (l : List (String × String)) (k key : String) (h : key ≠ k) :
    lookupA (l.filter (fun p => p.1 != k)) key = lookupA l key := by
  induction l with
  | nil => rfl
  | cons p rest ih =>
    rcases p with ⟨pk, pv⟩
    by_cases hp : pk = k
    · subst hp
      simp [List.filter_cons, lookupA, h, ih]
    · simp only [List.filter_cons]
      rw [if_pos (by simpa using hp)]
      simp only [lookupA]
      split
      · rfl
      · exact ih

/-- Lookup after an overwriting insertion: the inserted key reads the
new value, every other key reads as before. -/
theorem lookupA_updAssoc (l : List (String × String)) (k v key : String) :
    lookupA (updAssoc l k v) key = if key = k then some v else lookupA l key := by
  unfold updAssoc
  by_cases h : key = k
  · simp [lookupA, h]
  · simp [lookupA, h, lookupA_filter_ne l k key h]

/-- A key matched case-insensitively by no member of the snapshot stays
absent from the name map built over any accumulator not containing it. -/
theorem buildNameMap_go_absent (ms : List MemberRec) (key : String)
    (acc : List (String × String)) (hacc : lookupA acc key = none)
    (habs : ∀ m ∈ ms, memberMatchesKey key m = false) :
    lookupA (ms.foldl bnmStep acc) key = none := by
  induction ms generalizing acc with
  | nil => exact hacc
  | cons m rest ih =>
    simp only [List.foldl_cons]
    have hm := habs m (by simp)
    apply ih
    · rcases m with ⟨mn, mg⟩
      cases mn with
      | none => simpa [bnmStep] using hacc
      | some nm =>
        cases mg with
        | none => simpa [bnmStep] using hacc
        | some gid =>
          simp only [bnmStep]
          rw [lookupA_updAssoc]
          simp only [memberMatchesKey, beq_eq_false_iff_ne, ne_eq] at hm
          rw [if_neg (fun hh => hm hh.symm)]
          exact hacc
    · exact fun x hx => habs x (List.mem_cons_of_mem _ hx)

/-- The resolution loop fails at the first name whose lowercased form
is missing from the map, with the thrown message naming exactly that
input, whatever names follow it and whatever was resolved before. -/
theorem resolveLoop_first_miss (nm : List (String × String)) (pre : List String)
    (n : String) (rest : List String) (acc : List (String × String))
    (hpre : ∀ p ∈ pre, jsTruthy (lookupA nm (jsToLower p)) = true)
    (hmiss : lookupA nm (jsToLower n) = none) :
    resolveLoop nm acc (pre ++ n :: rest) = .error ("Unknown member name: " ++ n) := by
  induction pre generalizing acc with
  | nil => simp only [List.nil_append, resolveLoop, hmiss]
  | cons p ps ih =>
    have hp := hpre p (by simp)
    cases hv : lookupA nm (jsToLower p) with
    | none => rw [hv] at hp; simp [jsTruthy] at hp
    | some v =>
      rw [hv] at hp
      have hv' : ¬ v = "" := by simpa [jsTruthy] using hp
      simp only [List.cons_append, resolveLoop, hv]
      rw [if_neg hv']
      exact ih (updAssoc acc p v) (fun x hx => hpre x (by simp [hx]))

/-- C3: for a display name present case-insensitively in the member
snapshot (its lowercased form reads a non-empty stable id in the lookup
built from the snapshot), the resolver returns that same stable id for
every casing variant of the name. -/
theorem resolver_case_insensitive (ms : List MemberRec) (n n' gid : String)
    (hpresent : lookupA (buildNameMap ms) (jsToLower n) = some gid)
    (hgid : gid ≠ "") (hcase : jsToLower n' = jsToLower n) :
    resolveUserIdsByName ms [n'] = .ok [(n', gid)] := by
  unfold resolveUserIdsByName
  simp only [resolveLoop, hcase, hpresent]
  rw [if_neg hgid]
  rfl

/-- C3 witness: Alice, ALICE and alice all resolve to the same stable
id id1 in the one-member Alice snapshot. -/
theorem resolver_case_insensitive_demo :
    resolveUserIdsByName msAlice ["Alice"] = .ok [("Alice", "id1")] ∧
    resolveUserIdsByName msAlice ["ALICE"] = .ok [("ALICE", "id1")] ∧
    resolveUserIdsByName msAlice ["alice"] = .ok [("alice", "id1")] :=
  ⟨resolver_case_insensitive msAlice "Alice" "Alice" "id1" (by decide) (by decide) rfl,
   resolver_case_insensitive msAlice "Alice" "ALICE" "id1" (by decide) (by decide) (by decide),
   resolver_case_insensitive msAlice "Alice" "alice" "id1" (by decide) (by decide) (by decide)⟩

/-- C4: for a requested display name absent case-insensitively from the
member snapshot, the resolver fails with the error message naming
exactly that input string; it fails immediately at the first unresolved
name (the names before it all resolve, the names after it are never
reached) and the error carries no partial name-to-id mapping at all. -/
theorem resolver_first_miss (ms : List MemberRec) (pre : List String) (n : String)
    (rest : List String)
    (hpre : ∀ p ∈ pre, jsTruthy (lookupA (buildNameMap ms) (jsToLower p)) = true)
    (habs : ∀ m ∈ ms, memberMatchesKey (jsToLower n) m = false) :
    resolveUserIdsByName ms (pre ++ n :: rest) = .error ("Unknown member name: " ++ n) := by
  unfold resolveUserIdsByName
  exact resolveLoop_first_miss _ pre n rest [] hpre
    (buildNameMap_go_absent ms (jsToLower n) [] rfl habs)

/-- C4 witness: requesting Alice then Carol then Dave against the Alice
snapshot fails with the message naming exactly Carol. -/
theorem resolver_first_miss_demo :
    resolveUserIdsByName msAlice ["Alice", "Carol", "Dave"] =
      .error "Unknown member name: Carol" :=
  resolver_first_miss msAlice ["Alice"] "Carol" ["Dave"] (by decide) (by decide)

/-- C5: the group resolution policy shared by createExpense, listEntries
and getGroupSummary (embedded once as selectGroup, the ternary repeated
verbatim in each handler): a present (truthy) groupId wins and resolves
by id; otherwise a present groupCode resolves through the invite-code
lookup; a present groupName alone always fails with the explicit
descriptive error, which surfaces through each of the three handlers,
never silently and never partially; with all three selectors absent the
configured default group is used, recomputed from the environment on
that call. -/
theorem group_resolution_policy (env : SplidEnv) (sel : GroupSelector) :
    (∀ s, sel.groupId = some s → s ≠ "" →
      selectGroup env sel = .ok ⟨s, env.currencyOf s⟩) ∧
    (jsTruthy sel.groupId = false → ∀ c, sel.groupCode = some c → c ≠ "" →
      selectGroup env sel = .ok ⟨env.inviteCode c, env.currencyOf (env.inviteCode c)⟩) ∧
    (jsTruthy sel.groupId = false → jsTruthy sel.groupCode = false →
      jsTruthy sel.groupName = true →
      selectGroup env sel = .error "Group selection by name is not supported yet" ∧
      getGroupSummaryHandler env sel =
        .fatal "Group selection by name is not supported yet" ∧
      listEntriesHandler env sel none =
        .fatal "Group selection by name is not supported yet" ∧
      ∀ a : CreateExpenseArgs, createExpenseHandler env sel a =
        .fatal "Group selection by name is not supported yet") ∧
    (jsTruthy sel.groupId = false → jsTruthy sel.groupCode = false →
      jsTruthy sel.groupName = false →
      selectGroup env sel = .ok (getDefaultGroup env)) := by
  refine ⟨?_, ?_, ?_, ?_⟩
  · rintro s hid hs
    have hst : jsTruthy (some s) = true := by simp [jsTruthy, hs]
    simp [selectGroup, resolveGroup, hid, hst]
  · rintro hid c hc hcne
    have hctt : jsTruthy (some c) = true := by simp [jsTruthy, hcne]
    simp [selectGroup, resolveGroup, hid, hc, hctt]
  · rintro hid hc hname
    have hsel : selectGroup env sel = .error "Group selection by name is not supported yet" := by
      simp [selectGroup, resolveGroup, hid, hc, hname]
    refine ⟨hsel, ?_, ?_, ?_⟩
    · simp [getGroupSummaryHandler, hsel]
    · simp [listEntriesHandler, limitSchema, hsel]
    · intro a
      simp [createExpenseHandler, hsel]
  · rintro hid hc hname
    simp [selectGroup, hid, hc, hname]

/-- C5 witness: a present groupId resolves by id against demoEnv, and a
name-only selector makes getGroupSummary fail with the explicit
unsupported-selector error. -/
theorem group_resolution_policy_demo :
    selectGroup demoEnv ⟨some "G9", none, none⟩ = .ok ⟨"G9", some "USD"⟩ ∧
    getGroupSummaryHandler demoEnv ⟨none, none, some "Trip"⟩ =
      .fatal "Group selection by name is not supported yet" :=
  ⟨(group_resolution_policy demoEnv ⟨some "G9", none, none⟩).1 "G9" rfl (by decide),
   ((group_resolution_policy demoEnv ⟨none, none, some "Trip"⟩).2.2.1 (by decide)
      (by decide) (by decide)).2.1⟩

/-- C6: listEntries accepts only integer limits in the range 1 to 100:
any other raw number is rejected at the schema boundary as schemaError,
uniformly in the environment and before group resolution, so no
collaborator call is made (in particular limit 150 is rejected); an
absent limit defaults to 20; every accepted call forwards a fetch at
offset 0 with the parsed limit; and the spec-modelled collaborator
fetch returns at most limit entries. -/
theorem listEntries_limit_schema (env : SplidEnv) (sel : GroupSelector) :
    (∀ q : ℚ, ¬ (q.den = 1 ∧ 1 ≤ q ∧ q ≤ 100) →
      listEntriesHandler env sel (some q) = .schemaError) ∧
    listEntriesHandler env sel (some 150) = .schemaError ∧
    (∀ g, selectGroup env sel = .ok g →
      listEntriesHandler env sel none = .ok ⟨g.id, 0, 20⟩) ∧
    (∀ q : ℚ, ∀ g, q.den = 1 → 1 ≤ q → q ≤ 100 → selectGroup env sel = .ok g →
      listEntriesHandler env sel (some q) = .ok ⟨g.id, 0, q.num⟩) ∧
    (∀ xs : List String, ∀ lim : Int, (fetchEntries xs 0 lim).length ≤ lim.toNat) := by
  have h1 : ∀ q : ℚ, ¬ (q.den = 1 ∧ 1 ≤ q ∧ q ≤ 100) →
      listEntriesHandler env sel (some q) = .schemaError := by
    intro q hq
    simp [listEntriesHandler, limitSchema, hq]
  refine ⟨h1, h1 150 (by decide), ?_, ?_, ?_⟩
  · intro g hg
    simp [listEntriesHandler, limitSchema, apiListEntries, hg]
  · intro q g hden hlo hhi hg
    simp [listEntriesHandler, limitSchema, apiListEntries, hden, hlo, hhi, hg]
  · intro xs lim
    simp [fetchEntries, List.length_take]

/-- C6 witness: limit 150 is rejected at the schema boundary against
demoEnv, and an absent limit fetches at offset 0 with limit 20 from the
default group. -/
theorem listEntries_limit_schema_demo :
    listEntriesHandler demoEnv ⟨none, none, none⟩ (some 150) = .schemaError ∧
    listEntriesHandler demoEnv ⟨none, none, none⟩ none = .ok ⟨"G1", 0, 20⟩ :=
  ⟨(listEntries_limit_schema demoEnv ⟨none, none, none⟩).2.1,
   (listEntries_limit_schema demoEnv ⟨none, none, none⟩).2.2.1 ⟨"G1", some "USD"⟩ rfl⟩

/-- C1: with group resolution succeeding, the createExpense share-sum
validation passes for every profiteer list whose exact share sum lies
within 1e-6 of 1 (the handler never returns the share-sum error then),
and for every list whose sum lies outside that band the handler returns
the tool-level error result (returned with the error flag, not thrown)
carrying exactly the computed sum that the source interpolates into its
message. -/
theorem createExpense_shareSum_band (env : SplidEnv) (sel : GroupSelector)
    (a : CreateExpenseArgs) (g : GroupRef) (hg : selectGroup env sel = .ok g) :
    (1 - eps ≤ shareSum a.profiteers → shareSum a.profiteers ≤ 1 + eps →
      ∀ q : ℚ, createExpenseHandler env sel a ≠ .toolError (.shareSum q)) ∧
    ((shareSum a.profiteers < 1 - eps ∨ 1 + eps < shareSum a.profiteers) →
      createExpenseHandler env sel a = .toolError (.shareSum (shareSum a.profiteers))) := by
  have heps : (0 : ℚ) < eps := by decide
  have hifband : ∀ s : ℚ, 1 - eps ≤ s → s ≤ 1 + eps → ¬ (eps < mathAbs (s - 1)) := by
    intro s hlo hhi
    unfold mathAbs
    split <;> push_neg <;> linarith
  have hifout : ∀ s : ℚ, (s < 1 - eps ∨ 1 + eps < s) → eps < mathAbs (s - 1) := by
    intro s hs
    unfold mathAbs
    rcases hs with h | h <;> split <;> linarith
  simp only [createExpenseHandler, hg]
  constructor
  · intro hlo hhi q
    unfold createExpenseCore
    rw [if_neg (hifband _ hlo hhi)]
    split
    · simp
    · split
      · simp
      · simp
  · intro hs
    unfold createExpenseCore
    rw [if_pos (hifout _ hs)]

/-- C1 witness: profiteer shares one half and two fifths sum to
nine tenths, outside the band, and the handler returns the tool-level
error result carrying exactly that sum. -/
theorem createExpense_shareSum_band_demo :
    createExpenseHandler demoEnv ⟨none, none, none⟩ ceBadArgs =
      .toolError (.shareSum (mkRat 9 10)) :=
  (createExpense_shareSum_band demoEnv ⟨none, none, none⟩ ceBadArgs ⟨"G1", some "USD"⟩
    rfl).2 (Or.inl (by decide))

end SplidMcp
